import Mathlib

/-!
# BlackRoad Chrome extension: poller/notifier, badge and API client

A shallow embedding of `src/background.js` (`checkForUpdates`, `updateBadge`),
`src/popup.js` (`loadSettings`, `apiRequest`) and `src/options.js`
(`testConnection`).

Conventions of the embedding:

* asynchronous functions are run to completion; the browser state they touch is
  an explicit `World` that is passed through, and every call that leaves the
  script (`fetch`, `chrome.notifications.create`, `chrome.storage.local.set`,
  `chrome.action.setBadge*`, `console.error`, `showStatus`) is appended, in
  program order, to a trace of `Effect`s;
* storage reads (`chrome.storage.*.get`) are inputs and are not traced;
* the remote service is an oracle from the request to the result of `fetch`;
* a function returns `Except JsError α`: `.error e` is a thrown exception (a
  rejected promise), `.ok a` is normal completion;
* decoded JSON bodies that the background worker and the options page inspect
  are typed records; a field that is absent (or otherwise falsy where the code
  tests it with `||`) is `none`, and a body that does not decode (or whose
  shape makes the property access throw) is the `.error` case of `json`.
-/

namespace BlackRoad

/-! ## Platform model -/

/-- A thrown JavaScript `Error` object: its `name` and its `message`. -/
structure JsError where
  name : String
  message : String
deriving DecidableEq, Repr

/-- The value of `new Error(message)`. -/
def newError (message : String) : JsError :=
  { name := "Error", message := message }

/-- The arguments of one `fetch(url, options)` call. `method` and `body` are
`none` when the options object does not have the property. -/
structure Request where
  url : String
  method : Option String
  headers : List (String × String)
  body : Option String
deriving DecidableEq, Repr

/-- A `Response`: the numeric status and what reading the body gives, as text
(`response.text()`) and as decoded JSON of type `β` (`response.json()`). -/
structure Response (β : Type) where
  status : Nat
  text : Except JsError String
  json : Except JsError β

/-- The getter `response.ok`: the status is in the range 200-299. -/
def Response.ok {β : Type} (r : Response β) : Bool :=
  decide (200 ≤ r.status) && decide (r.status ≤ 299)

/-- The settled promise of a `fetch` call. -/
inductive FetchResult (β : Type) where
  | rejected (cause : JsError)
  | resolved (response : Response β)

/-- A failed remote read: the promise is rejected (transport failure), the
response has a non-success status, or its body does not decode. -/
def FetchResult.failed {β : Type} : FetchResult β → Bool
  | .rejected _ => true
  | .resolved response =>
    !response.ok ||
      match response.json with
      | .error _ => true
      | .ok _ => false

/-- The options object handed to `chrome.notifications.create`. -/
structure NotificationOptions where
  type : String
  iconUrl : String
  title : String
  message : String
  priority : Nat
deriving DecidableEq, Repr

/-- Calls that leave the script, in program order. -/
inductive Effect where
  | fetch (request : Request)
  | notificationsCreate (options : NotificationOptions)
  | storageLocalSet (lastNotifiedTasks : List String)
  | setBadgeText (text : String)
  | setBadgeBackgroundColor (color : String)
  | consoleError (label : String) (error : JsError)
  | showStatus (message : String) (type : String)
deriving DecidableEq, Repr

/-- The keys of `chrome.storage.sync` that the extension uses; `none` is a key
that was never stored. -/
structure SyncStorage where
  apiKey : Option String
  apiUrl : Option String
  notifications : Option Bool
  urgentOnly : Option Bool
deriving DecidableEq, Repr

/-- The browser state seen by the background worker. -/
structure World where
  sync : SyncStorage
  lastNotifiedTasks : Option (List String)
  badgeText : String
  badgeBackgroundColor : String
  trace : List Effect
deriving DecidableEq, Repr

/-- Truthiness of a possibly undefined string: defined and not empty. -/
def truthyString : Option String → Bool
  | none => false
  | some s => s != ""

/-- The expression `x || d` for a possibly undefined string `x`. -/
def orString (x : Option String) (d : String) : String :=
  match x with
  | none => d
  | some s => if s != "" then s else d

/-- Appends one effect to the trace. -/
def World.log (w : World) (e : Effect) : World :=
  { w with trace := w.trace ++ [e] }

/-- The call `fetch(url, options)`. -/
def World.fetch {β : Type} (remote : Request → FetchResult β) (w : World) (request : Request) :
    FetchResult β × World :=
  (remote request, w.log (.fetch request))

/-- The call `chrome.notifications.create(options)`. -/
def World.notificationsCreate (w : World) (options : NotificationOptions) : World :=
  w.log (.notificationsCreate options)

/-- The call `chrome.storage.local.set({ lastNotifiedTasks })`. -/
def World.storageLocalSet (w : World) (ids : List String) : World :=
  { w with lastNotifiedTasks := some ids, trace := w.trace ++ [.storageLocalSet ids] }

/-- The call `chrome.action.setBadgeText({ text })`. -/
def World.setBadgeText (w : World) (text : String) : World :=
  { w with badgeText := text, trace := w.trace ++ [.setBadgeText text] }

/-- The call `chrome.action.setBadgeBackgroundColor({ color })`. -/
def World.setBadgeBackgroundColor (w : World) (color : String) : World :=
  { w with badgeBackgroundColor := color, trace := w.trace ++ [.setBadgeBackgroundColor color] }

/-- The notifications created so far, oldest first. -/
def World.notifications (w : World) : List NotificationOptions :=
  w.trace.filterMap fun e =>
    match e with
    | .notificationsCreate o => some o
    | _ => none

/-- The requests issued so far, oldest first. -/
def World.requests (w : World) : List Request :=
  w.trace.filterMap fun e =>
    match e with
    | .fetch r => some r
    | _ => none

/-- The number that a list of decimal digits denotes, most significant digit
first, continuing from `acc`. -/
def decimalValue (acc : Nat) (ds : List Char) : Nat :=
  ds.foldl (fun a c => a * 10 + (c.toNat - 48)) acc

/-! ## `src/background.js` -/

namespace Background

/-- A remote task; the worker reads only `id`. -/
structure Task where
  id : String
  title : String
deriving DecidableEq, Repr

/-- The decoded body of `GET /tasks?priority=urgent&status=pending`. -/
structure TasksBody where
  tasks : Option (List Task)
deriving DecidableEq, Repr

/-- The decoded body of `GET /tasks/stats`. -/
structure StatsBody where
  pending : Option Int
deriving DecidableEq, Repr

def API_BASE : String := "https://api.blackroad.io/v1"

/-- The headers object both requests of the worker carry. -/
def authHeaders (apiKey : String) : List (String × String) :=
  [("Authorization", "Bearer " ++ apiKey), ("Content-Type", "application/json")]

/-- The `fetch` arguments of `checkForUpdates` (lines 32-37). -/
def tasksRequest (apiKey : String) : Request :=
  { url := API_BASE ++ "/tasks?priority=urgent&status=pending"
    method := none
    headers := authHeaders apiKey
    body := none }

/-- The `fetch` arguments of `updateBadge` (lines 98-103). -/
def statsRequest (apiKey : String) : Request :=
  { url := API_BASE ++ "/tasks/stats"
    method := none
    headers := authHeaders apiKey
    body := none }

/-- The notification of lines 50-56 for `n` new tasks. -/
def urgentNotification (n : Nat) : NotificationOptions :=
  { type := "basic"
    iconUrl := "../icons/icon128.png"
    title := "BlackRoad: Urgent Tasks"
    message := toString n ++ " urgent task(s) pending"
    priority := 2 }

/-- The `try` block of `checkForUpdates` (lines 31-63). -/
def checkForUpdatesTry (remote : Request → FetchResult TasksBody) (apiKey : String)
    (w : World) : Except JsError Unit × World :=
  match w.fetch remote (tasksRequest apiKey) with
  | (.rejected cause, w1) => (.error cause, w1)
  | (.resolved response, w1) =>
    if response.ok then
      match response.json with
      | .error cause => (.error cause, w1)
      | .ok data =>
        let tasks := data.tasks.getD []
        if tasks.length > 0 then
          let notified := w1.lastNotifiedTasks.getD []
          let newTasks := tasks.filter fun t => !notified.contains t.id
          if newTasks.length > 0 then
            let w2 := w1.notificationsCreate (urgentNotification newTasks.length)
            let w3 := w2.storageLocalSet (notified ++ newTasks.map fun t => t.id)
            (.ok (), w3)
          else (.ok (), w1)
        else (.ok (), w1)
    else (.ok (), w1)

/-- The function `checkForUpdates` (lines 25-67). -/
def checkForUpdates (remote : Request → FetchResult TasksBody) (w : World) :
    Except JsError Unit × World :=
  let apiKey := w.sync.apiKey
  let notifications := w.sync.notifications
  if !truthyString apiKey || notifications == some false then (.ok (), w)
  else
    match checkForUpdatesTry remote (apiKey.getD "") w with
    | (.ok (), w1) => (.ok (), w1)
    | (.error error, w1) => (.ok (), w1.log (.consoleError "Failed to check for updates:" error))

/-- The expression `stats.pending || 0`. -/
def pendingOrZero (pending : Option Int) : Int :=
  match pending with
  | none => 0
  | some p => if p != 0 then p else 0

/-- The `try` block of `updateBadge` (lines 97-115). -/
def updateBadgeTry (remote : Request → FetchResult StatsBody) (apiKey : String)
    (w : World) : Except JsError Unit × World :=
  match w.fetch remote (statsRequest apiKey) with
  | (.rejected cause, w1) => (.error cause, w1)
  | (.resolved response, w1) =>
    if response.ok then
      match response.json with
      | .error cause => (.error cause, w1)
      | .ok stats =>
        let pending := pendingOrZero stats.pending
        if pending > 0 then
          let w2 := w1.setBadgeText (if pending > 99 then "99+" else toString pending)
          (.ok (), w2.setBadgeBackgroundColor "#FF1D6C")
        else (.ok (), w1.setBadgeText "")
    else (.ok (), w1)

/-- The function `updateBadge` (lines 89-119). -/
def updateBadge (remote : Request → FetchResult StatsBody) (w : World) :
    Except JsError Unit × World :=
  let apiKey := w.sync.apiKey
  if !truthyString apiKey then (.ok (), w.setBadgeText "")
  else
    match updateBadgeTry remote (apiKey.getD "") w with
    | (.ok (), w1) => (.ok (), w1)
    | (.error error, w1) => (.ok (), w1.log (.consoleError "Failed to update badge:" error))

/-! ### The scenario of the specification: key "k1", two urgent tasks -/

def scenarioSync : SyncStorage :=
  { apiKey := some "k1", apiUrl := none, notifications := none, urgentOnly := none }

def scenarioWorld : World :=
  { sync := scenarioSync
    lastNotifiedTasks := some []
    badgeText := ""
    badgeBackgroundColor := ""
    trace := [] }

def scenarioTasks : TasksBody :=
  { tasks := some [{ id := "a", title := "first" }, { id := "b", title := "second" }] }

def scenarioResponse : Response TasksBody :=
  { status := 200, text := .ok "", json := .ok scenarioTasks }

def scenarioRemote : Request → FetchResult TasksBody :=
  fun _ => .resolved scenarioResponse

/-- A remote that answers every stats request with status 200 and the given
pending count. -/
def statsRemote (pending : Int) : Request → FetchResult StatsBody :=
  fun _ => .resolved { status := 200, text := .ok "", json := .ok { pending := some pending } }

/-- A remote whose transport always fails. -/
def offline {β : Type} : Request → FetchResult β :=
  fun _ => .rejected { name := "TypeError", message := "Failed to fetch" }

end Background

/-! ## `src/popup.js` -/

/-- A JSON value, as passed for `body` and as returned by `response.json()`.
Numbers are the integer-valued ones. -/
inductive Json where
  | null
  | bool (b : Bool)
  | num (n : Int)
  | str (s : String)
  | arr (elems : List Json)
  | obj (fields : List (String × Json))

/-- Truthiness of a JSON value: `null`, `false`, `0` and `""` are falsy. -/
def Json.truthy : Json → Bool
  | .null => false
  | .bool b => b
  | .num n => n != 0
  | .str s => s != ""
  | .arr _ => true
  | .obj _ => true

namespace Popup

def API_BASE : String := "https://api.blackroad.io/v1"

/-- The popup page: the module-level variable `apiKey` (line 5) and the calls
made so far. -/
structure Page where
  apiKey : String
  trace : List Effect
deriving DecidableEq, Repr

/-- The page right after the script is loaded: `let apiKey = ''`. -/
def Page.init : Page :=
  { apiKey := "", trace := [] }

/-- The function `loadSettings` (lines 18-21): reads the key `apiKey` only. -/
def loadSettings (sync : SyncStorage) (page : Page) : Page :=
  { page with apiKey := orString sync.apiKey "" }

/-- The `options` object of `apiRequest` together with its `url` (lines
206-218). `body` is `none` when the third argument is omitted. `stringify` is
the builtin `JSON.stringify`. -/
def requestOptions (stringify : Json → String) (page : Page) (method endpoint : String)
    (body : Option Json) : Request :=
  let url := API_BASE ++ endpoint
  let options : Request :=
    { url := url
      method := some method
      headers := [("Authorization", "Bearer " ++ page.apiKey), ("Content-Type", "application/json")]
      body := none }
  match body with
  | none => options
  | some b => if b.truthy then { options with body := some (stringify b) } else options

/-- The function `apiRequest` (lines 205-228). -/
def apiRequest (stringify : Json → String) (remote : Request → FetchResult Json)
    (page : Page) (method endpoint : String) (body : Option Json) :
    Except JsError Json × Page :=
  let options := requestOptions stringify page method endpoint body
  let page1 := { page with trace := page.trace ++ [.fetch options] }
  match remote options with
  | .rejected cause => (.error cause, page1)
  | .resolved response =>
    if !response.ok then
      match response.text with
      | .error cause => (.error cause, page1)
      | .ok errorText =>
        (.error (newError ("API error (" ++ toString response.status ++ "): " ++ errorText)), page1)
    else (response.json, page1)

/-- A remote that answers every request with status 401 and the text
"Unauthorized". -/
def unauthorized : Request → FetchResult Json :=
  fun _ =>
    .resolved
      { status := 401
        text := .ok "Unauthorized"
        json := .error { name := "SyntaxError", message := "Unexpected token U in JSON" } }

/-- The error taxonomy in the words of the specification (section 7): an
`ApiError` with the numeric status and the response text, or a `NetworkError`
with the underlying cause. The code has no such classes; the type is here to
state what the specification says about the value that `apiRequest` throws. -/
inductive SpecError where
  | apiError (status : Nat) (body : String)
  | networkError (cause : JsError)

/-- A remote whose transport fails with an error that happens to have the
message of a 401 answer. -/
def transportFailure : Request → FetchResult Json :=
  fun _ => .rejected { name := "Error", message := "API error (401): Unauthorized" }

/-- The settings of a user who saved a key and a base URL of their own. -/
def customSync : SyncStorage :=
  { apiKey := some "k1"
    apiUrl := some "https://example.test/v1"
    notifications := none
    urgentOnly := none }

end Popup

/-! ## `src/options.js` -/

namespace Options

def DEFAULT_API_URL : String := "https://api.blackroad.io/v1"

/-- The characters that `String.prototype.trim` strips: WhiteSpace and
LineTerminator of the language specification. -/
def isTrimmed (c : Char) : Bool :=
  let n := c.toNat
  n == 0x9 || n == 0xA || n == 0xB || n == 0xC || n == 0xD || n == 0x20 || n == 0xA0 ||
  n == 0x1680 || (decide (0x2000 ≤ n) && decide (n ≤ 0x200A)) || n == 0x2028 || n == 0x2029 ||
  n == 0x202F || n == 0x205F || n == 0x3000 || n == 0xFEFF

/-- The method `String.prototype.trim`. -/
def trim (s : String) : String :=
  String.mk ((s.data.dropWhile isTrimmed).reverse.dropWhile isTrimmed).reverse

/-- The decoded body of `GET /health`; `version` is the text that the template
literal of line 70 prints for `data.version`. -/
structure HealthBody where
  status : Option String
  version : String
deriving DecidableEq, Repr

/-- The `fetch` arguments of `testConnection` (lines 60-65). -/
def healthRequest (apiUrl apiKey : String) : Request :=
  { url := apiUrl ++ "/health"
    method := none
    headers := [("Authorization", "Bearer " ++ apiKey), ("Content-Type", "application/json")]
    body := none }

/-- The `try` block of `testConnection` (lines 60-78). -/
def testConnectionTry (remote : Request → FetchResult HealthBody) (apiUrl apiKey : String)
    (trace : List Effect) : Except JsError Unit × List Effect :=
  let trace1 := trace ++ [.fetch (healthRequest apiUrl apiKey)]
  match remote (healthRequest apiUrl apiKey) with
  | .rejected cause => (.error cause, trace1)
  | .resolved response =>
    if response.ok then
      match response.json with
      | .error cause => (.error cause, trace1)
      | .ok data =>
        if data.status == some "healthy" then
          (.ok (), trace1 ++ [.showStatus ("Connected! API version: " ++ data.version) "success"])
        else
          (.ok (), trace1 ++ [.showStatus "API returned unhealthy status" "error"])
    else if response.status == 401 then
      (.ok (), trace1 ++ [.showStatus "Invalid API key" "error"])
    else
      (.ok (), trace1 ++ [.showStatus ("API error: " ++ toString response.status) "error"])

/-- The function `testConnection` (lines 50-82); `apiKeyValue` and
`apiUrlValue` are the contents of the two input fields. -/
def testConnection (remote : Request → FetchResult HealthBody) (apiKeyValue apiUrlValue : String)
    (trace : List Effect) : Except JsError Unit × List Effect :=
  let apiKey := trim apiKeyValue
  let apiUrl := orString (some (trim apiUrlValue)) DEFAULT_API_URL
  if !truthyString (some apiKey) then
    (.ok (), trace ++ [.showStatus "Please enter an API key" "error"])
  else
    match testConnectionTry remote apiUrl apiKey trace with
    | (.ok (), trace1) => (.ok (), trace1)
    | (.error error, trace1) =>
      (.ok (), trace1 ++ [.showStatus ("Connection failed: " ++ error.message) "error"])

/-- The messages shown to the user, oldest first. -/
def statusMessages (trace : List Effect) : List String :=
  trace.filterMap fun e =>
    match e with
    | .showStatus message _ => some message
    | _ => none

/-- A remote that answers every health check with the given status and body. -/
def healthRemote (status : Nat) (body : HealthBody) : Request → FetchResult HealthBody :=
  fun _ => .resolved { status := status, text := .ok "", json := .ok body }

end Options

/-! ## Properties of `checkForUpdates` -/

namespace Background

/-- The ids of `tasks` that are not in `notified`: the list `newTasks` of
line 47, mapped to ids. -/
theorem mem_newTask_ids (notified : List String) (tasks : List Task) (x : String) :
    x ∈ (tasks.filter fun t => !notified.contains t.id).map (fun t => t.id) ↔
      x ∈ tasks.map (fun t => t.id) ∧ x ∉ notified := by
  simp only [List.mem_map, List.mem_filter]
  constructor
  · rintro ⟨t, ⟨ht, hn⟩, rfl⟩
    exact ⟨⟨t, ht, rfl⟩, by simpa using hn⟩
  · rintro ⟨⟨t, ht, rfl⟩, hn⟩
    exact ⟨t, ⟨ht, by simpa using hn⟩, rfl⟩

/-- What `checkForUpdates` does when the key is configured, notifications are
not disabled and the fetch succeeds with a decodable body. -/
theorem checkForUpdates_of_success (remote : Request → FetchResult TasksBody) (w : World)
    (k : String) (response : Response TasksBody) (data : TasksBody)
    (hkey : w.sync.apiKey = some k) (hk : k ≠ "")
    (hnotif : w.sync.notifications ≠ some false)
    (hfetch : remote (tasksRequest k) = .resolved response)
    (hok : response.ok = true) (hjson : response.json = .ok data) :
    checkForUpdates remote w =
      (.ok (),
        if (data.tasks.getD []).filter
            (fun t => !(w.lastNotifiedTasks.getD []).contains t.id) = [] then
          w.log (.fetch (tasksRequest k))
        else
          ((w.log (.fetch (tasksRequest k))).notificationsCreate
              (urgentNotification ((data.tasks.getD []).filter
                (fun t => !(w.lastNotifiedTasks.getD []).contains t.id)).length)).storageLocalSet
            (w.lastNotifiedTasks.getD [] ++
              ((data.tasks.getD []).filter
                (fun t => !(w.lastNotifiedTasks.getD []).contains t.id)).map fun t => t.id)) := by
  have hn : (w.sync.notifications == some false) = false := by
    cases h : w.sync.notifications with
    | none => rfl
    | some b => cases b <;> simp_all
  have hlog : (w.log (.fetch (tasksRequest k))).lastNotifiedTasks = w.lastNotifiedTasks := rfl
  simp only [checkForUpdates, hkey, truthyString, hn, checkForUpdatesTry, World.fetch, hfetch,
    hok, hjson, Option.getD_some, hlog]
  have hk2 : (k != "") = true := by simpa using hk
  simp only [hk2, Bool.not_true, Bool.false_or, Bool.false_eq_true, if_false, if_true]
  generalize data.tasks.getD [] = T
  cases T with
  | nil => simp
  | cons t ts =>
    simp only [List.length_cons, gt_iff_lt, Nat.zero_lt_succ, if_true]
    generalize (t :: ts).filter (fun t => !(w.lastNotifiedTasks.getD []).contains t.id) = F
    cases F with
    | nil => simp
    | cons f fs => simp

theorem notifications_log_fetch (w : World) (r : Request) :
    (w.log (.fetch r)).notifications = w.notifications := by
  simp [World.notifications, World.log, List.filterMap_append]

theorem notifications_log_consoleError (w : World) (l : String) (e : JsError) :
    (w.log (.consoleError l e)).notifications = w.notifications := by
  simp [World.notifications, World.log, List.filterMap_append]

theorem notifications_notificationsCreate (w : World) (o : NotificationOptions) :
    (w.notificationsCreate o).notifications = w.notifications ++ [o] := by
  simp [World.notifications, World.notificationsCreate, World.log, List.filterMap_append]

theorem notifications_storageLocalSet (w : World) (ids : List String) :
    (w.storageLocalSet ids).notifications = w.notifications := by
  simp [World.notifications, World.storageLocalSet, List.filterMap_append]

/-- C1: with an API key configured and notifications not disabled, after a
successful fetch that decodes to the task list `T` and with `D` the stored list
of notified ids, `checkForUpdates` emits a notification iff some task of `T` has
an id outside `D`; it then emits exactly one, with message
"<n> urgent task(s) pending" where `n` counts the tasks of `T` with id outside
`D`, and the stored list becomes `D` followed by those ids, so that its
elements are those of `D` together with the ids of `T` outside `D`; otherwise
no notification is emitted and the stored list is unchanged. -/
theorem checkForUpdates_notifies_iff_new_task
    (remote : Request → FetchResult TasksBody) (w : World)
    (k : String) (response : Response TasksBody) (data : TasksBody)
    (hkey : w.sync.apiKey = some k) (hk : k ≠ "")
    (hnotif : w.sync.notifications ≠ some false)
    (hfetch : remote (tasksRequest k) = .resolved response)
    (hok : response.ok = true) (hjson : response.json = .ok data) :
    ((checkForUpdates remote w).2.notifications ≠ w.notifications ↔
      ∃ t ∈ data.tasks.getD [], t.id ∉ w.lastNotifiedTasks.getD []) ∧
    ((∃ t ∈ data.tasks.getD [], t.id ∉ w.lastNotifiedTasks.getD []) →
      (∃ n : NotificationOptions,
        (checkForUpdates remote w).2.notifications = w.notifications ++ [n] ∧
        n.message =
          toString ((data.tasks.getD []).countP
            fun t => decide (t.id ∉ w.lastNotifiedTasks.getD [])) ++
          " urgent task(s) pending") ∧
      ∃ stored : List String,
        (checkForUpdates remote w).2.lastNotifiedTasks = some stored ∧
        stored = w.lastNotifiedTasks.getD [] ++
          ((data.tasks.getD []).filter
            fun t => decide (t.id ∉ w.lastNotifiedTasks.getD [])).map (fun t => t.id) ∧
        ∀ x, x ∈ stored ↔
          x ∈ w.lastNotifiedTasks.getD [] ∨
            (x ∈ (data.tasks.getD []).map (fun t => t.id) ∧
              x ∉ w.lastNotifiedTasks.getD [])) ∧
    ((¬ ∃ t ∈ data.tasks.getD [], t.id ∉ w.lastNotifiedTasks.getD []) →
      (checkForUpdates remote w).2.notifications = w.notifications ∧
      (checkForUpdates remote w).2.lastNotifiedTasks = w.lastNotifiedTasks) := by
  rw [checkForUpdates_of_success remote w k response data hkey hk hnotif hfetch hok hjson]
  have hfun : (fun t : Task => !(w.lastNotifiedTasks.getD []).contains t.id) =
      fun t => decide (t.id ∉ w.lastNotifiedTasks.getD []) := by
    funext t; simp
  rw [hfun]
  have hempty : (data.tasks.getD []).filter
        (fun t => decide (t.id ∉ w.lastNotifiedTasks.getD [])) = [] ↔
      ¬ ∃ t ∈ data.tasks.getD [], t.id ∉ w.lastNotifiedTasks.getD [] := by
    simp [List.filter_eq_nil_iff]
  by_cases hex : ∃ t ∈ data.tasks.getD [], t.id ∉ w.lastNotifiedTasks.getD []
  · have hne : ¬ (data.tasks.getD []).filter
        (fun t => decide (t.id ∉ w.lastNotifiedTasks.getD [])) = [] := fun h => hempty.mp h hex
    simp only [hne, if_false]
    simp only [notifications_storageLocalSet, notifications_notificationsCreate,
      notifications_log_fetch]
    refine ⟨⟨fun _ => hex, fun _ => by simp⟩, fun _ => ⟨⟨_, rfl, ?_⟩, _, rfl, rfl, ?_⟩, fun h => absurd hex h⟩
    · simp [urgentNotification, List.countP_eq_length_filter]
    · intro x
      rw [List.mem_append, ← hfun, mem_newTask_ids]
  · have he : (data.tasks.getD []).filter
        (fun t => decide (t.id ∉ w.lastNotifiedTasks.getD [])) = [] := hempty.mpr hex
    simp only [he, if_true, notifications_log_fetch]
    exact ⟨⟨fun h => absurd rfl h, fun h => absurd h hex⟩, fun h => absurd h hex, fun _ => ⟨trivial, rfl⟩⟩

/-- C1 at the scenario of the specification: two urgent tasks, nothing notified
before. One notification "2 urgent task(s) pending"; the stored list becomes
`["a", "b"]`. -/
theorem checkForUpdates_notifies_iff_new_task_witness :
    (∃ n : NotificationOptions,
      (checkForUpdates scenarioRemote scenarioWorld).2.notifications = [n] ∧
      n.message = "2 urgent task(s) pending") ∧
    (checkForUpdates scenarioRemote scenarioWorld).2.lastNotifiedTasks = some ["a", "b"] := by
  have h := (checkForUpdates_notifies_iff_new_task scenarioRemote scenarioWorld "k1"
    scenarioResponse scenarioTasks rfl (by decide) (by decide) rfl rfl rfl).2.1
    ⟨{ id := "a", title := "first" }, by decide, by decide⟩
  obtain ⟨⟨n, hn, hmsg⟩, stored, hs, hstored, _⟩ := h
  refine ⟨⟨n, hn, hmsg.trans (by decide)⟩, ?_⟩
  rw [hs, hstored]
  decide

/-- Once the new ids are appended, no task of the same list is new. -/
theorem filter_after_append_eq_nil (notified : List String) (tasks : List Task) :
    tasks.filter (fun t => !(notified ++
      (tasks.filter fun t => !notified.contains t.id).map fun t => t.id).contains t.id) = [] := by
  rw [List.filter_eq_nil_iff]
  intro t ht
  by_cases hmem : t.id ∈ notified
  · simp [hmem]
  · have : t.id ∈ (tasks.filter fun t => !notified.contains t.id).map fun t => t.id :=
      (mem_newTask_ids notified tasks t.id).mpr ⟨List.mem_map_of_mem _ ht, hmem⟩
    have h2 : t.id ∈ notified ++
        (tasks.filter fun t => !notified.contains t.id).map fun t => t.id :=
      List.mem_append_right _ this
    have h3 : (notified ++
        (tasks.filter fun t => !notified.contains t.id).map fun t => t.id).contains t.id = true :=
      List.elem_iff.mpr h2
    rw [h3]; decide

/-- C2: idempotence of `checkForUpdates`. With an API key configured and
notifications not disabled, if the fetch succeeds with the same task list on two
successive runs, the second run emits no notification and leaves the stored
list of notified ids exactly as the first run left it. -/
theorem checkForUpdates_second_run_silent
    (remote : Request → FetchResult TasksBody) (w : World)
    (k : String) (response : Response TasksBody) (data : TasksBody)
    (hkey : w.sync.apiKey = some k) (hk : k ≠ "")
    (hnotif : w.sync.notifications ≠ some false)
    (hfetch : remote (tasksRequest k) = .resolved response)
    (hok : response.ok = true) (hjson : response.json = .ok data) :
    (checkForUpdates remote (checkForUpdates remote w).2).1 = .ok () ∧
    (checkForUpdates remote (checkForUpdates remote w).2).2.notifications =
      (checkForUpdates remote w).2.notifications ∧
    (checkForUpdates remote (checkForUpdates remote w).2).2.lastNotifiedTasks =
      (checkForUpdates remote w).2.lastNotifiedTasks := by
  have h1 := checkForUpdates_of_success remote w k response data hkey hk hnotif hfetch hok hjson
  by_cases hf : (data.tasks.getD []).filter
      (fun t => !(w.lastNotifiedTasks.getD []).contains t.id) = []
  · rw [if_pos hf] at h1
    have h2 := checkForUpdates_of_success remote (w.log (.fetch (tasksRequest k))) k response data
      hkey hk hnotif hfetch hok hjson
    have hl : (w.log (.fetch (tasksRequest k))).lastNotifiedTasks = w.lastNotifiedTasks := rfl
    rw [hl, if_pos hf] at h2
    rw [h1, h2]
    exact ⟨rfl, notifications_log_fetch _ _, rfl⟩
  · rw [if_neg hf] at h1
    rw [h1]
    generalize hw1 : ((w.log (.fetch (tasksRequest k))).notificationsCreate
      (urgentNotification ((data.tasks.getD []).filter
        (fun t => !(w.lastNotifiedTasks.getD []).contains t.id)).length)).storageLocalSet
      (w.lastNotifiedTasks.getD [] ++ ((data.tasks.getD []).filter
        (fun t => !(w.lastNotifiedTasks.getD []).contains t.id)).map fun t => t.id) = w1
    have hs : w1.sync = w.sync := by rw [← hw1]; rfl
    have hl : w1.lastNotifiedTasks.getD [] = w.lastNotifiedTasks.getD [] ++
        ((data.tasks.getD []).filter
          (fun t => !(w.lastNotifiedTasks.getD []).contains t.id)).map fun t => t.id := by
      rw [← hw1]; rfl
    have h2 := checkForUpdates_of_success remote w1 k response data
      (by rw [hs]; exact hkey) hk (by rw [hs]; exact hnotif) hfetch hok hjson
    rw [hl, filter_after_append_eq_nil, if_pos rfl] at h2
    rw [h2]
    exact ⟨rfl, notifications_log_fetch _ _, rfl⟩

/-- C2 at the scenario of the specification: the second run with the same two
tasks emits nothing more and keeps the stored list `["a", "b"]`. -/
theorem checkForUpdates_second_run_silent_witness :
    (checkForUpdates scenarioRemote (checkForUpdates scenarioRemote scenarioWorld).2).2.notifications
      = [urgentNotification 2] ∧
    (checkForUpdates scenarioRemote
      (checkForUpdates scenarioRemote scenarioWorld).2).2.lastNotifiedTasks = some ["a", "b"] := by
  have h := checkForUpdates_second_run_silent scenarioRemote scenarioWorld "k1"
    scenarioResponse scenarioTasks rfl (by decide) (by decide) rfl rfl rfl
  rw [h.2.1, h.2.2]
  exact ⟨by decide, by decide⟩

/-- C4: missing configuration is a no-op. When no API key is stored (the key is
absent or the empty string) `checkForUpdates` returns with the world untouched
(no request, no notification, same stored list) and `updateBadge` issues no
request and its only effect is `setBadgeText` with the empty string; when the
notifications setting is `false`, `checkForUpdates` leaves the world untouched
whatever the key. -/
theorem missing_configuration_is_noop
    (remoteTasks : Request → FetchResult TasksBody)
    (remoteStats : Request → FetchResult StatsBody) (w : World) :
    ((w.sync.apiKey = none ∨ w.sync.apiKey = some "") →
      checkForUpdates remoteTasks w = (.ok (), w) ∧
      updateBadge remoteStats w =
        (.ok (), { w with badgeText := "", trace := w.trace ++ [.setBadgeText ""] }) ∧
      (updateBadge remoteStats w).2.requests = w.requests) ∧
    (w.sync.notifications = some false → checkForUpdates remoteTasks w = (.ok (), w)) := by
  refine ⟨fun h => ?_, fun h => ?_⟩
  · have ht : truthyString w.sync.apiKey = false := by
      rcases h with h | h <;> rw [h] <;> rfl
    refine ⟨by simp [checkForUpdates, ht], by simp [updateBadge, ht, World.setBadgeText], ?_⟩
    simp [updateBadge, ht, World.setBadgeText, World.requests, List.filterMap_append]
  · simp [checkForUpdates, h]

/-- C4 at concrete worlds: the scenario world with the key removed, with the
empty key, and with notifications switched off. -/
theorem missing_configuration_is_noop_witness :
    checkForUpdates scenarioRemote { scenarioWorld with sync := { scenarioSync with apiKey := none } }
      = (.ok (), { scenarioWorld with sync := { scenarioSync with apiKey := none } }) ∧
    (updateBadge (fun _ => .rejected (newError "unused"))
        { scenarioWorld with sync := { scenarioSync with apiKey := some "" }, badgeText := "7" }).2.trace
      = [.setBadgeText ""] ∧
    checkForUpdates scenarioRemote
        { scenarioWorld with sync := { scenarioSync with notifications := some false } }
      = (.ok (), { scenarioWorld with sync := { scenarioSync with notifications := some false } }) :=
  ⟨((missing_configuration_is_noop scenarioRemote (fun _ => .rejected (newError "unused"))
      { scenarioWorld with sync := { scenarioSync with apiKey := none } }).1 (Or.inl rfl)).1,
   by
    rw [((missing_configuration_is_noop scenarioRemote (fun _ => .rejected (newError "unused"))
      { scenarioWorld with sync := { scenarioSync with apiKey := some "" }, badgeText := "7" }).1
        (Or.inr rfl)).2.1]
    rfl,
   (missing_configuration_is_noop scenarioRemote (fun _ => .rejected (newError "unused"))
      { scenarioWorld with sync := { scenarioSync with notifications := some false } }).2 rfl⟩

/-- `checkForUpdates` never throws: the `catch` clause absorbs every error of
the `try` block. -/
theorem checkForUpdates_completes (remote : Request → FetchResult TasksBody) (w : World) :
    (checkForUpdates remote w).1 = .ok () := by
  unfold checkForUpdates
  dsimp only
  split
  · rfl
  · split <;> rfl

/-- The world after `checkForUpdates`: untouched, the one the `try` block left,
or that one with a logged error. -/
theorem checkForUpdates_world (remote : Request → FetchResult TasksBody) (w : World) :
    (checkForUpdates remote w).2 = w ∨
    (checkForUpdates remote w).2 = (checkForUpdatesTry remote (w.sync.apiKey.getD "") w).2 ∨
    ∃ error, (checkForUpdates remote w).2 =
      (checkForUpdatesTry remote (w.sync.apiKey.getD "") w).2.log
        (.consoleError "Failed to check for updates:" error) := by
  unfold checkForUpdates
  dsimp only
  split
  · exact Or.inl rfl
  · split
    · next h => exact Or.inr (Or.inl (by rw [h]))
    · next error w1 h => exact Or.inr (Or.inr ⟨error, by rw [h]⟩)

/-- After a failed fetch the `try` block has only issued the request. -/
theorem checkForUpdatesTry_of_failed (remote : Request → FetchResult TasksBody) (k : String)
    (w : World) (hfail : (remote (tasksRequest k)).failed = true) :
    (checkForUpdatesTry remote k w).2 = w.log (.fetch (tasksRequest k)) := by
  unfold checkForUpdatesTry World.fetch
  cases hr : remote (tasksRequest k) with
  | rejected cause => rfl
  | resolved response =>
    rw [hr] at hfail
    dsimp only
    by_cases hok : response.ok = true
    · rw [if_pos hok]
      cases hj : response.json with
      | error cause => rfl
      | ok data => simp [FetchResult.failed, hok, hj] at hfail
    · rw [if_neg hok]

/-- C5: whatever the stored list, if the urgent-task fetch is rejected, answers
with a non-success status, or its body fails to decode, `checkForUpdates`
completes normally (it does not throw), emits no notification and leaves the
stored list of notified ids as it was. -/
theorem checkForUpdates_fetch_failure_is_swallowed
    (remote : Request → FetchResult TasksBody) (w : World)
    (hfail : (remote (tasksRequest (w.sync.apiKey.getD ""))).failed = true) :
    (checkForUpdates remote w).1 = .ok () ∧
    (checkForUpdates remote w).2.notifications = w.notifications ∧
    (checkForUpdates remote w).2.lastNotifiedTasks = w.lastNotifiedTasks := by
  refine ⟨checkForUpdates_completes remote w, ?_⟩
  have ht := checkForUpdatesTry_of_failed remote _ w hfail
  rcases checkForUpdates_world remote w with h | h | ⟨error, h⟩
  · rw [h]; exact ⟨rfl, rfl⟩
  · rw [h, ht]; exact ⟨notifications_log_fetch _ _, rfl⟩
  · rw [h, ht]
    exact ⟨(notifications_log_consoleError _ _ _).trans (notifications_log_fetch _ _), rfl⟩

/-- C5 at a concrete failure: the transport fails while `["a"]` is stored. -/
theorem checkForUpdates_fetch_failure_is_swallowed_witness :
    (checkForUpdates (fun _ => .rejected { name := "TypeError", message := "Failed to fetch" })
      { scenarioWorld with lastNotifiedTasks := some ["a"] }).1 = .ok () ∧
    (checkForUpdates (fun _ => .rejected { name := "TypeError", message := "Failed to fetch" })
      { scenarioWorld with lastNotifiedTasks := some ["a"] }).2.notifications = [] ∧
    (checkForUpdates (fun _ => .rejected { name := "TypeError", message := "Failed to fetch" })
      { scenarioWorld with lastNotifiedTasks := some ["a"] }).2.lastNotifiedTasks = some ["a"] :=
  checkForUpdates_fetch_failure_is_swallowed
    (fun _ => .rejected { name := "TypeError", message := "Failed to fetch" })
    { scenarioWorld with lastNotifiedTasks := some ["a"] } rfl

/-! ## Properties of `updateBadge` -/

/-- `updateBadge` never throws. -/
theorem updateBadge_completes (remote : Request → FetchResult StatsBody) (w : World) :
    (updateBadge remote w).1 = .ok () := by
  unfold updateBadge
  dsimp only
  split
  · rfl
  · split <;> rfl

/-- After a failed fetch the `try` block of `updateBadge` has only issued the
request. -/
theorem updateBadgeTry_of_failed (remote : Request → FetchResult StatsBody) (k : String)
    (w : World) (hfail : (remote (statsRequest k)).failed = true) :
    (updateBadgeTry remote k w).2 = w.log (.fetch (statsRequest k)) := by
  unfold updateBadgeTry World.fetch
  cases hr : remote (statsRequest k) with
  | rejected cause => rfl
  | resolved response =>
    rw [hr] at hfail
    dsimp only
    by_cases hok : response.ok = true
    · rw [if_pos hok]
      cases hj : response.json with
      | error cause => rfl
      | ok data => simp [FetchResult.failed, hok, hj] at hfail
    · rw [if_neg hok]

/-- With a key configured, the world after `updateBadge` is the one the `try`
block left, possibly with a logged error. -/
theorem updateBadge_world_of_key (remote : Request → FetchResult StatsBody) (w : World)
    (k : String) (hkey : w.sync.apiKey = some k) (hk : k ≠ "") :
    (updateBadge remote w).2 = (updateBadgeTry remote k w).2 ∨
    ∃ error, (updateBadge remote w).2 =
      (updateBadgeTry remote k w).2.log (.consoleError "Failed to update badge:" error) := by
  have hk2 : (k != "") = true := by simpa using hk
  unfold updateBadge
  simp only [hkey, truthyString, hk2, Bool.not_true, Bool.false_eq_true, if_false,
    Option.getD_some]
  split
  · next h => exact Or.inl (by rw [h])
  · next error w1 h => exact Or.inr ⟨error, by rw [h]⟩

/-- The badge text after a successful stats fetch with decoded body `stats`. -/
theorem updateBadge_badgeText_of_success (remote : Request → FetchResult StatsBody) (w : World)
    (k : String) (response : Response StatsBody) (stats : StatsBody)
    (hkey : w.sync.apiKey = some k) (hk : k ≠ "")
    (hfetch : remote (statsRequest k) = .resolved response)
    (hok : response.ok = true) (hjson : response.json = .ok stats) :
    (updateBadge remote w).2.badgeText =
      if pendingOrZero stats.pending > 0 then
        (if pendingOrZero stats.pending > 99 then "99+" else toString (pendingOrZero stats.pending))
      else "" := by
  have hk2 : (k != "") = true := by simpa using hk
  unfold updateBadge
  simp only [hkey, truthyString, hk2, Bool.not_true, Bool.false_eq_true, if_false,
    Option.getD_some, updateBadgeTry, World.fetch, hfetch, hok, hjson, if_true]
  by_cases hp : pendingOrZero stats.pending > 0
  · simp only [hp, if_true]
    rfl
  · simp only [hp, if_false]
    rfl

/-- Decimal numerals below one hundred have at most two digits. -/
theorem toString_length_le_two (n : Nat) (h : n < 100) :
    (toString (Int.ofNat n)).length ≤ 2 := by
  revert n
  decide

theorem pendingOrZero_some (p : Int) : pendingOrZero (some p) = p := by
  unfold pendingOrZero
  by_cases h : p = 0
  · simp [h]
  · simp [h]

/-- C3: with a key configured, after a successful stats fetch whose body has
the integer pending count `p`, the badge text is empty when `p = 0`, the decimal
numeral of `p` when `1 ≤ p ≤ 99`, and "99+" when `p > 99`; in every case
(negative counts included) it has at most 4 characters. -/
theorem updateBadge_badgeText_of_pending
    (remote : Request → FetchResult StatsBody) (w : World)
    (k : String) (response : Response StatsBody) (p : Int)
    (hkey : w.sync.apiKey = some k) (hk : k ≠ "")
    (hfetch : remote (statsRequest k) = .resolved response)
    (hok : response.ok = true) (hjson : response.json = .ok { pending := some p }) :
    (p = 0 → (updateBadge remote w).2.badgeText = "") ∧
    (1 ≤ p → p ≤ 99 → (updateBadge remote w).2.badgeText = toString p) ∧
    (99 < p → (updateBadge remote w).2.badgeText = "99+") ∧
    (updateBadge remote w).2.badgeText.length ≤ 4 := by
  rw [updateBadge_badgeText_of_success remote w k response _ hkey hk hfetch hok hjson,
    pendingOrZero_some]
  refine ⟨fun h => by simp [h], fun h1 h2 => ?_, fun h => ?_, ?_⟩
  · rw [if_pos (by omega), if_neg (by omega)]
  · rw [if_pos (by omega), if_pos (by omega)]
  · by_cases h0 : p > 0
    · rw [if_pos h0]
      by_cases h99 : p > 99
      · rw [if_pos h99]; decide
      · rw [if_neg h99]
        obtain ⟨n, rfl⟩ := Int.eq_ofNat_of_zero_le (le_of_lt h0)
        have hn : n < 100 := by omega
        exact le_trans (toString_length_le_two n hn) (by decide)
    · rw [if_neg h0]; decide

/-- C3 at the three counts of the specification: 0 gives the empty text, 45
gives "45", 150 gives "99+". -/
theorem updateBadge_badgeText_of_pending_witness :
    (updateBadge (statsRemote 0) { scenarioWorld with badgeText := "3" }).2.badgeText = "" ∧
    (updateBadge (statsRemote 45) scenarioWorld).2.badgeText = "45" ∧
    (updateBadge (statsRemote 150) scenarioWorld).2.badgeText = "99+" :=
  ⟨(updateBadge_badgeText_of_pending (statsRemote 0) { scenarioWorld with badgeText := "3" } "k1"
      _ 0 rfl (by decide) rfl rfl rfl).1 rfl,
   ((updateBadge_badgeText_of_pending (statsRemote 45) scenarioWorld "k1"
      _ 45 rfl (by decide) rfl rfl rfl).2.1 (by decide) (by decide)).trans (by decide),
   (updateBadge_badgeText_of_pending (statsRemote 150) scenarioWorld "k1"
      _ 150 rfl (by decide) rfl rfl rfl).2.2.1 (by decide)⟩

/-- C6: with a key configured, if the stats fetch is rejected, answers with a
non-success status, or its body fails to decode, `updateBadge` completes
normally and the badge text is the one it was before; the same world without a
key gets the empty badge text instead. -/
theorem updateBadge_fetch_failure_keeps_badge
    (remote : Request → FetchResult StatsBody) (w : World) (k : String)
    (hkey : w.sync.apiKey = some k) (hk : k ≠ "")
    (hfail : (remote (statsRequest k)).failed = true) :
    (updateBadge remote w).1 = .ok () ∧
    (updateBadge remote w).2.badgeText = w.badgeText ∧
    (updateBadge remote { w with sync := { w.sync with apiKey := none } }).2.badgeText = "" ∧
    (updateBadge remote { w with sync := { w.sync with apiKey := some "" } }).2.badgeText = "" := by
  refine ⟨updateBadge_completes remote w, ?_, rfl, rfl⟩
  have ht := updateBadgeTry_of_failed remote k w hfail
  rcases updateBadge_world_of_key remote w k hkey hk with h | ⟨error, h⟩
  · rw [h, ht]; rfl
  · rw [h, ht]; rfl

/-- C6 at a concrete failure: the badge shows "7" and the transport fails. -/
theorem updateBadge_fetch_failure_keeps_badge_witness :
    (updateBadge offline { scenarioWorld with badgeText := "7" }).1 = .ok () ∧
    (updateBadge offline { scenarioWorld with badgeText := "7" }).2.badgeText = "7" ∧
    (updateBadge offline
      { scenarioWorld with badgeText := "7", sync := { scenarioSync with apiKey := none } }
      ).2.badgeText = "" :=
  have h := updateBadge_fetch_failure_keeps_badge offline { scenarioWorld with badgeText := "7" }
    "k1" rfl (by decide) rfl
  ⟨h.1, h.2.1, h.2.2.1⟩

end Background

/-! ## Properties of `apiRequest` -/

namespace Popup

theorem digitChar_value : ∀ m < 10, (Nat.digitChar m).toNat - 48 = m := by decide

theorem digitChar_ne_paren : ∀ m < 10, Nat.digitChar m ≠ ')' := by decide

/-- Reading back the digits that `Nat.toDigitsCore` prints gives the number. -/
theorem decimalValue_toDigitsCore (fuel : Nat) :
    ∀ (n : Nat) (ds : List Char), n < fuel →
      decimalValue 0 (Nat.toDigitsCore 10 fuel n ds) = decimalValue n ds := by
  induction fuel with
  | zero => intro n ds h; omega
  | succ fuel ih =>
    intro n ds h
    have hd := digitChar_value (n % 10) (Nat.mod_lt _ (by decide))
    unfold Nat.toDigitsCore
    dsimp only
    by_cases h0 : n / 10 = 0
    · rw [if_pos h0]
      have hn : n % 10 = n := by omega
      simp only [decimalValue, List.foldl_cons, Nat.zero_mul, Nat.zero_add]
      rw [hd, hn]
    · rw [if_neg h0, ih (n / 10) _ (by omega)]
      simp only [decimalValue, List.foldl_cons, hd]
      congr 1
      omega

/-- The decimal numeral of a status code denotes that status code. -/
theorem decimalValue_toString (n : Nat) : decimalValue 0 (toString n).data = n := by
  show decimalValue 0 (Nat.toDigits 10 n) = n
  unfold Nat.toDigits
  rw [decimalValue_toDigitsCore (n + 1) n [] (by omega)]
  rfl

theorem toDigitsCore_no_paren (fuel : Nat) :
    ∀ (n : Nat) (ds : List Char), ')' ∉ ds → ')' ∉ Nat.toDigitsCore 10 fuel n ds := by
  induction fuel with
  | zero => intro n ds h; exact h
  | succ fuel ih =>
    intro n ds h
    have hd := digitChar_ne_paren (n % 10) (Nat.mod_lt _ (by decide))
    have hcons : ')' ∉ Nat.digitChar (n % 10) :: ds := by
      intro hm
      rcases List.mem_cons.mp hm with h1 | h1
      · exact hd h1.symm
      · exact h h1
    unfold Nat.toDigitsCore
    dsimp only
    by_cases h0 : n / 10 = 0
    · rw [if_pos h0]; exact hcons
    · rw [if_neg h0]; exact ih _ _ hcons

theorem toString_no_paren (n : Nat) : ')' ∉ (toString n).data :=
  toDigitsCore_no_paren (n + 1) n [] (List.not_mem_nil _)

/-- Two lists that agree after being cut at the first separator agree piece by
piece. -/
theorem append_separator_inj (c : Char) :
    ∀ (l1 l2 r1 r2 : List Char), c ∉ l1 → c ∉ l2 → l1 ++ c :: r1 = l2 ++ c :: r2 →
      l1 = l2 ∧ r1 = r2 := by
  intro l1
  induction l1 with
  | nil =>
    intro l2 r1 r2 _ h2 h
    cases l2 with
    | nil => simpa using h
    | cons a l2 =>
      simp only [List.nil_append, List.cons_append, List.cons.injEq] at h
      exact absurd (h.1 ▸ List.mem_cons_self _ _) h2
  | cons a l1 ih =>
    intro l2 r1 r2 h1 h2 h
    cases l2 with
    | nil =>
      simp only [List.nil_append, List.cons_append, List.cons.injEq] at h
      exact absurd (h.1 ▸ List.mem_cons_self _ _) h1
    | cons b l2 =>
      simp only [List.cons_append, List.cons.injEq] at h
      obtain ⟨rfl, hrest⟩ := h
      have hrec := ih l2 r1 r2 (fun hm => h1 (List.mem_cons_of_mem _ hm))
        (fun hm => h2 (List.mem_cons_of_mem _ hm)) hrest
      exact ⟨by rw [hrec.1], hrec.2⟩

/-- The message of line 224 determines the status and the response text. -/
theorem apiErrorMessage_inj (s s2 : Nat) (t t2 : String)
    (h : "API error (" ++ toString s ++ "): " ++ t =
      "API error (" ++ toString s2 ++ "): " ++ t2) :
    s = s2 ∧ t = t2 := by
  have hd := congrArg String.data h
  simp only [String.data_append] at hd
  simp only [List.append_assoc, List.cons_append, List.nil_append, List.cons.injEq, true_and]
    at hd
  obtain ⟨h1, h2⟩ :=
    append_separator_inj ')' _ _ _ _ (toString_no_paren s) (toString_no_paren s2) hd
  constructor
  · rw [← decimalValue_toString s, ← decimalValue_toString s2, h1]
  · simp only [List.cons.injEq, true_and] at h2
    exact String.ext h2

/-- C7, as the code has it: `apiRequest` issues exactly one request. If the
response has a non-success status `s` and raw text `t`, it fails with a plain
`Error` whose message is "API error (<s>): <t>" (HTTP 401 included, no retry);
the status and the text travel only inside that message, and two such failures
throw the same error only if status and text agree. If the transport fails, it
fails with the underlying cause itself, unwrapped. On a success status it
returns the parsed JSON body. -/
theorem apiRequest_single_attempt_outcomes
    (stringify : Json → String) (remote : Request → FetchResult Json) (page : Page)
    (method endpoint : String) (body : Option Json) :
    (∀ (response : Response Json) (t : String),
      remote (requestOptions stringify page method endpoint body) = .resolved response →
      response.ok = false → response.text = .ok t →
      apiRequest stringify remote page method endpoint body =
        (.error { name := "Error",
                  message := "API error (" ++ toString response.status ++ "): " ++ t },
          { page with
            trace := page.trace ++ [.fetch (requestOptions stringify page method endpoint body)] })) ∧
    (∀ (remote2 : Request → FetchResult Json) (response response2 : Response Json)
        (t t2 : String),
      remote (requestOptions stringify page method endpoint body) = .resolved response →
      remote2 (requestOptions stringify page method endpoint body) = .resolved response2 →
      response.ok = false → response2.ok = false →
      response.text = .ok t → response2.text = .ok t2 →
      (apiRequest stringify remote page method endpoint body).1 =
        (apiRequest stringify remote2 page method endpoint body).1 →
      response.status = response2.status ∧ t = t2) ∧
    (∀ cause : JsError,
      remote (requestOptions stringify page method endpoint body) = .rejected cause →
      apiRequest stringify remote page method endpoint body =
        (.error cause,
          { page with
            trace := page.trace ++ [.fetch (requestOptions stringify page method endpoint body)] })) ∧
    (∀ (response : Response Json) (parsed : Json),
      remote (requestOptions stringify page method endpoint body) = .resolved response →
      response.ok = true → response.json = .ok parsed →
      apiRequest stringify remote page method endpoint body =
        (.ok parsed,
          { page with
            trace := page.trace ++ [.fetch (requestOptions stringify page method endpoint body)] })) := by
  refine ⟨?_, ?_, ?_, ?_⟩
  · intro response t hr hok ht
    simp [apiRequest, hr, hok, ht, newError]
  · intro remote2 response response2 t t2 hr hr2 hok hok2 ht ht2 h
    have e1 : (apiRequest stringify remote page method endpoint body).1 =
        .error (newError ("API error (" ++ toString response.status ++ "): " ++ t)) := by
      simp [apiRequest, hr, hok, ht]
    have e2 : (apiRequest stringify remote2 page method endpoint body).1 =
        .error (newError ("API error (" ++ toString response2.status ++ "): " ++ t2)) := by
      simp [apiRequest, hr2, hok2, ht2]
    rw [e1, e2] at h
    have hmsg := congrArg JsError.message (Except.error.inj h)
    exact apiErrorMessage_inj _ _ _ _ hmsg
  · intro cause hr
    simp [apiRequest, hr]
  · intro response parsed hr hok hj
    simp [apiRequest, hr, hok, hj]

/-- C7 fails as stated: what `apiRequest` throws on HTTP 401 with the text
"Unauthorized" is a plain `Error` with the message
"API error (401): Unauthorized", and a transport failure whose cause is an
`Error` with that message makes it throw the very same value. So no reading of
the thrown value gives an `ApiError` with status and text after every
non-success response and a `NetworkError` with the cause after every transport
failure. -/
theorem apiRequest_error_kind_not_carried :
    (apiRequest (fun _ => "") unauthorized (loadSettings customSync Page.init) "GET" "/health"
        none).1 = .error { name := "Error", message := "API error (401): Unauthorized" } ∧
    (apiRequest (fun _ => "") transportFailure (loadSettings customSync Page.init) "GET" "/health"
        none).1 = .error { name := "Error", message := "API error (401): Unauthorized" } ∧
    ¬ ∃ classify : JsError → SpecError,
      (∀ (remote : Request → FetchResult Json) (response : Response Json) (t : String),
        remote (requestOptions (fun _ => "") (loadSettings customSync Page.init) "GET" "/health"
          none) = .resolved response →
        response.ok = false → response.text = .ok t →
        ∃ e, (apiRequest (fun _ => "") remote (loadSettings customSync Page.init) "GET"
            "/health" none).1 = .error e ∧
          classify e = .apiError response.status t) ∧
      (∀ (remote : Request → FetchResult Json) (cause : JsError),
        remote (requestOptions (fun _ => "") (loadSettings customSync Page.init) "GET" "/health"
          none) = .rejected cause →
        ∃ e, (apiRequest (fun _ => "") remote (loadSettings customSync Page.init) "GET"
            "/health" none).1 = .error e ∧
          classify e = .networkError cause) := by
  refine ⟨rfl, rfl, ?_⟩
  rintro ⟨classify, hapi, hnet⟩
  obtain ⟨e1, he1, hc1⟩ := hapi unauthorized
    { status := 401
      text := .ok "Unauthorized"
      json := .error { name := "SyntaxError", message := "Unexpected token U in JSON" } }
    "Unauthorized" rfl rfl rfl
  obtain ⟨e2, he2, hc2⟩ := hnet transportFailure
    { name := "Error", message := "API error (401): Unauthorized" } rfl
  have hv1 : (apiRequest (fun _ => "") unauthorized (loadSettings customSync Page.init) "GET"
      "/health" none).1 =
      .error { name := "Error", message := "API error (401): Unauthorized" } := rfl
  have hv2 : (apiRequest (fun _ => "") transportFailure (loadSettings customSync Page.init) "GET"
      "/health" none).1 =
      .error { name := "Error", message := "API error (401): Unauthorized" } := rfl
  have h1 : e1 = { name := "Error", message := "API error (401): Unauthorized" } :=
    Except.error.inj (he1.symm.trans hv1)
  have h2 : e2 = { name := "Error", message := "API error (401): Unauthorized" } :=
    Except.error.inj (he2.symm.trans hv2)
  rw [h1] at hc1
  rw [h2, hc1] at hc2
  cases hc2

/-- C7 at HTTP 401 with the text "Unauthorized": one request, and the error
"API error (401): Unauthorized". -/
theorem apiRequest_single_attempt_outcomes_witness :
    apiRequest (fun _ => "") unauthorized (loadSettings customSync Page.init) "GET" "/health" none =
      (.error { name := "Error", message := "API error (401): Unauthorized" },
        { apiKey := "k1"
          trace := [.fetch
            { url := "https://api.blackroad.io/v1/health"
              method := some "GET"
              headers := [("Authorization", "Bearer k1"), ("Content-Type", "application/json")]
              body := none }] }) :=
  ((apiRequest_single_attempt_outcomes (fun _ => "") unauthorized
    (loadSettings customSync Page.init) "GET" "/health" none).1
      { status := 401
        text := .ok "Unauthorized"
        json := .error { name := "SyntaxError", message := "Unexpected token U in JSON" } }
      "Unauthorized" rfl rfl rfl).trans rfl

/-- `apiRequest` hands exactly the options of lines 206-218 to `fetch`, once. -/
theorem apiRequest_trace (stringify : Json → String) (remote : Request → FetchResult Json)
    (page : Page) (method endpoint : String) (body : Option Json) :
    (apiRequest stringify remote page method endpoint body).2.trace =
      page.trace ++ [.fetch (requestOptions stringify page method endpoint body)] := by
  unfold apiRequest
  dsimp only
  split
  · rfl
  · split
    · split <;> rfl
    · rfl

/-- C9, as the code has it: the one request of `apiRequest` carries the headers
`Authorization: Bearer <apiKey>` and `Content-Type: application/json`; when the
third argument is a truthy JSON value the payload is its serialization; the
request has no payload exactly when the third argument is omitted or falsy
(`null`, `false`, `0`, `""`). -/
theorem apiRequest_headers_and_payload
    (stringify : Json → String) (remote : Request → FetchResult Json) (page : Page)
    (method endpoint : String) (body : Option Json) :
    (apiRequest stringify remote page method endpoint body).2.trace =
      page.trace ++ [.fetch (requestOptions stringify page method endpoint body)] ∧
    (requestOptions stringify page method endpoint body).headers =
      [("Authorization", "Bearer " ++ page.apiKey), ("Content-Type", "application/json")] ∧
    (∀ b : Json, body = some b → b.truthy = true →
      (requestOptions stringify page method endpoint body).body = some (stringify b)) ∧
    ((requestOptions stringify page method endpoint body).body = none ↔
      body = none ∨ ∃ b : Json, body = some b ∧ b.truthy = false) := by
  refine ⟨apiRequest_trace stringify remote page method endpoint body, ?_, ?_, ?_⟩
  · cases body with
    | none => rfl
    | some b => cases hb : b.truthy <;> simp [requestOptions, hb]
  · intro b hb ht
    subst hb
    simp [requestOptions, ht]
  · cases body with
    | none => simp [requestOptions]
    | some b => cases hb : b.truthy <;> simp [requestOptions, hb]

/-- C9 at the quick action "task": the object body is serialized into the
payload, and an omitted body gives no payload. -/
theorem apiRequest_headers_and_payload_witness :
    (requestOptions (fun _ => "serialized") (loadSettings customSync Page.init) "POST" "/tasks"
      (some (.obj [("title", .str "Fix login"), ("priority", .str "medium")]))).body =
        some "serialized" ∧
    (requestOptions (fun _ => "serialized") (loadSettings customSync Page.init) "GET" "/health"
      none).body = none :=
  ⟨(apiRequest_headers_and_payload (fun _ => "serialized") unauthorized
      (loadSettings customSync Page.init) "POST" "/tasks"
      (some (.obj [("title", .str "Fix login"), ("priority", .str "medium")]))).2.2.1 _ rfl rfl,
   (apiRequest_headers_and_payload (fun _ => "serialized") unauthorized
      (loadSettings customSync Page.init) "GET" "/health" none).2.2.2.mpr (Or.inl rfl)⟩

/-- C9 fails as stated: the JSON value `0` passed as third argument is not
serialized; the request goes out without a payload although a body was
passed. -/
theorem apiRequest_drops_falsy_body :
    (apiRequest (fun _ => "0") unauthorized (loadSettings customSync Page.init) "POST" "/tasks"
      (some (.num 0))).2.trace =
        [.fetch
          { url := "https://api.blackroad.io/v1/tasks"
            method := some "POST"
            headers := [("Authorization", "Bearer k1"), ("Content-Type", "application/json")]
            body := none }] ∧
    (requestOptions (fun _ => "0") (loadSettings customSync Page.init) "POST" "/tasks"
      (some (.num 0))).body ≠ some ((fun _ => "0") (Json.num 0)) := by
  constructor
  · decide
  · decide

/-- C8 fails on the code: `loadSettings` reads only `apiKey`, and the URL that
`apiRequest` requests is the constant `API_BASE` followed by the path, whatever
base URL is stored. With "https://example.test/v1" stored, the request for
"/health" goes to "https://api.blackroad.io/v1/health", while `testConnection`
of the options page does request "https://example.test/v1/health". -/
theorem apiRequest_ignores_stored_apiUrl :
    (∀ (stringify : Json → String) (sync : SyncStorage) (page : Page) (method endpoint : String)
        (body : Option Json),
      (requestOptions stringify (loadSettings sync page) method endpoint body).url =
        "https://api.blackroad.io/v1" ++ endpoint) ∧
    (apiRequest (fun _ => "") unauthorized (loadSettings customSync Page.init) "GET" "/health"
      none).2.trace =
        [.fetch
          { url := "https://api.blackroad.io/v1/health"
            method := some "GET"
            headers := [("Authorization", "Bearer k1"), ("Content-Type", "application/json")]
            body := none }] ∧
    customSync.apiUrl = some "https://example.test/v1" ∧
    "https://api.blackroad.io/v1/health" ≠ "https://example.test/v1" ++ "/health" ∧
    (Options.testConnection (Options.healthRemote 200 { status := some "healthy", version := "1" })
      "k1" "https://example.test/v1" []).2.head? =
        some (.fetch
          { url := "https://example.test/v1/health"
            method := none
            headers := [("Authorization", "Bearer k1"), ("Content-Type", "application/json")]
            body := none }) := by
  refine ⟨?_, by decide, rfl, by decide, by decide⟩
  intro stringify sync page method endpoint body
  cases body with
  | none => rfl
  | some b => cases hb : b.truthy <;> simp [requestOptions, hb, API_BASE]

end Popup

/-! ## Properties of `testConnection` -/

namespace Options

theorem connected_ne_unhealthy (v : String) :
    "Connected! API version: " ++ v ≠ "API returned unhealthy status" := by
  intro h
  have h2 : ("Connected! API version: " ++ v).data.head? =
      "API returned unhealthy status".data.head? := by rw [h]
  have h3 : ("Connected! API version: " ++ v).data.head? = some 'C' := rfl
  rw [h3] at h2
  exact absurd h2 (by decide)

theorem connected_ne_invalid (v : String) :
    "Connected! API version: " ++ v ≠ "Invalid API key" := by
  intro h
  have h2 : ("Connected! API version: " ++ v).data.head? = "Invalid API key".data.head? := by
    rw [h]
  have h3 : ("Connected! API version: " ++ v).data.head? = some 'C' := rfl
  rw [h3] at h2
  exact absurd h2 (by decide)

theorem apiError_ne_connected (s : Nat) (v : String) :
    "API error: " ++ toString s ≠ "Connected! API version: " ++ v := by
  intro h
  have h2 : ("API error: " ++ toString s).data.head? =
      ("Connected! API version: " ++ v).data.head? := by rw [h]
  have h3 : ("API error: " ++ toString s).data.head? = some 'A' := rfl
  have h4 : ("Connected! API version: " ++ v).data.head? = some 'C' := rfl
  rw [h3, h4] at h2
  exact absurd h2 (by decide)

theorem apiError_ne_unhealthy (s : Nat) :
    "API error: " ++ toString s ≠ "API returned unhealthy status" := by
  intro h
  have h2 : ("API error: " ++ toString s).data.take 5 =
      "API returned unhealthy status".data.take 5 := by rw [h]
  have h3 : ("API error: " ++ toString s).data.take 5 = ['A', 'P', 'I', ' ', 'e'] := rfl
  rw [h3] at h2
  exact absurd h2 (by decide)

theorem apiError_ne_invalid (s : Nat) : "API error: " ++ toString s ≠ "Invalid API key" := by
  intro h
  have h2 : ("API error: " ++ toString s).data.head? = "Invalid API key".data.head? := by
    rw [h]
  have h3 : ("API error: " ++ toString s).data.head? = some 'A' := rfl
  rw [h3] at h2
  exact absurd h2 (by decide)

/-- What `testConnection` does once the trimmed key is not empty: the `try`
block runs with the trimmed key and the trimmed URL (or the default URL), and a
thrown error becomes a "Connection failed" message. -/
theorem testConnection_of_key (remote : Request → FetchResult HealthBody)
    (apiKeyValue apiUrlValue : String) (trace : List Effect) (hkey : trim apiKeyValue ≠ "") :
    testConnection remote apiKeyValue apiUrlValue trace =
      match testConnectionTry remote (orString (some (trim apiUrlValue)) DEFAULT_API_URL)
          (trim apiKeyValue) trace with
      | (.ok (), trace1) => (.ok (), trace1)
      | (.error error, trace1) =>
        (.ok (), trace1 ++ [.showStatus ("Connection failed: " ++ error.message) "error"]) := by
  have hk : (trim apiKeyValue != "") = true := by simpa using hkey
  unfold testConnection
  simp only [truthyString, hk, Bool.not_true, Bool.false_eq_true, if_false]

/-- C10: for an API key that is not empty after trimming, `testConnection`
issues one health check and shows one message determined by the response: on a
success status with body status "healthy" it is
"Connected! API version: <version>"; on a success status with any other body
status it is "API returned unhealthy status"; on HTTP 401 it is
"Invalid API key"; on any other non-success status `s` it is "API error: <s>".
For every version string and every status these messages are pairwise
distinct. -/
theorem testConnection_distinguishes_outcomes
    (remote : Request → FetchResult HealthBody) (apiKeyValue apiUrlValue : String)
    (trace : List Effect) (response : Response HealthBody)
    (hkey : trim apiKeyValue ≠ "")
    (hfetch : remote (healthRequest (orString (some (trim apiUrlValue)) DEFAULT_API_URL)
      (trim apiKeyValue)) = .resolved response) :
    (∀ data : HealthBody, response.ok = true → response.json = .ok data →
      data.status = some "healthy" →
      testConnection remote apiKeyValue apiUrlValue trace =
        (.ok (), trace ++
          [.fetch (healthRequest (orString (some (trim apiUrlValue)) DEFAULT_API_URL)
            (trim apiKeyValue)),
           .showStatus ("Connected! API version: " ++ data.version) "success"])) ∧
    (∀ data : HealthBody, response.ok = true → response.json = .ok data →
      data.status ≠ some "healthy" →
      testConnection remote apiKeyValue apiUrlValue trace =
        (.ok (), trace ++
          [.fetch (healthRequest (orString (some (trim apiUrlValue)) DEFAULT_API_URL)
            (trim apiKeyValue)),
           .showStatus "API returned unhealthy status" "error"])) ∧
    (response.status = 401 →
      testConnection remote apiKeyValue apiUrlValue trace =
        (.ok (), trace ++
          [.fetch (healthRequest (orString (some (trim apiUrlValue)) DEFAULT_API_URL)
            (trim apiKeyValue)),
           .showStatus "Invalid API key" "error"])) ∧
    (response.ok = false → response.status ≠ 401 →
      testConnection remote apiKeyValue apiUrlValue trace =
        (.ok (), trace ++
          [.fetch (healthRequest (orString (some (trim apiUrlValue)) DEFAULT_API_URL)
            (trim apiKeyValue)),
           .showStatus ("API error: " ++ toString response.status) "error"])) ∧
    (∀ (v : String) (s : Nat),
      "Connected! API version: " ++ v ≠ "API returned unhealthy status" ∧
      "Connected! API version: " ++ v ≠ "Invalid API key" ∧
      "API returned unhealthy status" ≠ "Invalid API key" ∧
      "API error: " ++ toString s ≠ "Connected! API version: " ++ v ∧
      "API error: " ++ toString s ≠ "API returned unhealthy status" ∧
      "API error: " ++ toString s ≠ "Invalid API key") := by
  rw [testConnection_of_key remote apiKeyValue apiUrlValue trace hkey]
  refine ⟨?_, ?_, ?_, ?_, ?_⟩
  · intro data hok hjson hs
    simp [testConnectionTry, hfetch, hok, hjson, hs]
  · intro data hok hjson hs
    simp [testConnectionTry, hfetch, hok, hjson, hs]
  · intro h401
    have hok : response.ok = false := by simp [Response.ok, h401]
    simp [testConnectionTry, hfetch, hok, h401]
  · intro hok hs
    simp [testConnectionTry, hfetch, hok, hs]
  · intro v s
    exact ⟨connected_ne_unhealthy v, connected_ne_invalid v, by decide,
      apiError_ne_connected s v, apiError_ne_unhealthy s, apiError_ne_invalid s⟩

/-- C10 at three concrete health checks with the key " k1 ": a healthy body
with version "1.4.2", a degraded body, and HTTP 401. -/
theorem testConnection_distinguishes_outcomes_witness :
    statusMessages
      (testConnection (healthRemote 200 { status := some "healthy", version := "1.4.2" })
        " k1 " "" []).2 = ["Connected! API version: 1.4.2"] ∧
    statusMessages
      (testConnection (healthRemote 200 { status := some "degraded", version := "1.4.2" })
        " k1 " "" []).2 = ["API returned unhealthy status"] ∧
    statusMessages
      (testConnection (healthRemote 401 { status := none, version := "undefined" })
        " k1 " "" []).2 = ["Invalid API key"] := by
  have h1 := (testConnection_distinguishes_outcomes
    (healthRemote 200 { status := some "healthy", version := "1.4.2" }) " k1 " "" []
    _ (by decide) rfl).1 _ rfl rfl rfl
  have h2 := (testConnection_distinguishes_outcomes
    (healthRemote 200 { status := some "degraded", version := "1.4.2" }) " k1 " "" []
    _ (by decide) rfl).2.1 _ rfl rfl (by decide)
  have h3 := (testConnection_distinguishes_outcomes
    (healthRemote 401 { status := none, version := "undefined" }) " k1 " "" []
    _ (by decide) rfl).2.2.1 rfl
  rw [h1, h2, h3]
  exact ⟨by decide, by decide, by decide⟩

end Options

end BlackRoad
